import Mathlib

/-!
Verification development for the Medical Pool lending ledger (src/App.tsx).

The TypeScript source is shallowly embedded: the pure helpers (`daysBetween`,
`formatDate`), the ledger mutations (`createAsset`/`updateAsset` via the
`submit`/`saveEdit` validators, `updateBorrow`, `returnBorrow`), the dashboard
overdue classification, the report filter, and the export/print pipeline are
translated into executable Lean definitions and the specified properties are
proved about them.

Modelling conventions:
* JavaScript `Date` values are epoch milliseconds (`Int`); `new Date(s)` is
  `parseDate s : Option Int`, where `none` stands for an Invalid Date.  The
  parser accepts the ISO forms the application actually produces and consumes
  (`YYYY-MM-DD` date inputs, parsed at UTC midnight, and
  `YYYY-MM-DDTHH:MM:SS[.mmm]Z` timestamps from `toISOString`); all other
  strings are Invalid Dates.  The runtime's local time zone is modelled as UTC,
  and locale rendering (`toLocaleDateString` / `toLocaleString`) is modelled
  deterministically in en-US style.
* JavaScript string falsiness (`!s`, `s || ""`, `s ? _ : _`) is emptiness of
  the string; nullable fields are `Option String`, with `none` and `some ""`
  both falsy, exactly as in the source.
* React `setState` collections become explicit list-in / list-out functions;
  a mutation that bails out with `setErr` returns `Except.error` with the
  source's message and leaves the collection unchanged.
-/

/-! ### Calendar arithmetic (model of the JS Date epoch) -/

/-- Numeric value of a decimal digit character. -/
def digitVal (c : Char) : Nat := c.toNat - 48

/-- Two decimal digits read as a number, or `none` when not digits. -/
def twoDigits (a b : Char) : Option Nat :=
  if a.isDigit && b.isDigit then some (10 * digitVal a + digitVal b) else none

/-- Three decimal digits read as a number, or `none` when not digits. -/
def threeDigits (a b c : Char) : Option Nat :=
  if a.isDigit && b.isDigit && c.isDigit then
    some (100 * digitVal a + 10 * digitVal b + digitVal c)
  else none

/-- Four decimal digits read as a number, or `none` when not digits. -/
def fourDigits (a b c d : Char) : Option Nat :=
  if a.isDigit && b.isDigit && c.isDigit && d.isDigit then
    some (1000 * digitVal a + 100 * digitVal b + 10 * digitVal c + digitVal d)
  else none

/-- Gregorian leap-year test. -/
def isLeap (y : Nat) : Bool := (y % 4 == 0 && y % 100 != 0) || y % 400 == 0

/-- Length of month `m` in year `y`. -/
def monthLen (y m : Nat) : Nat :=
  if m = 2 then (if isLeap y then 29 else 28)
  else if m = 4 ∨ m = 6 ∨ m = 9 ∨ m = 11 then 30
  else 31

/-- Days from the Unix epoch to civil date `y-m-d` (Gregorian, proleptic). -/
def daysFromCivil (y m d : Int) : Int :=
  let y' := if m ≤ 2 then y - 1 else y
  let era := Int.fdiv y' 400
  let yoe := y' - era * 400
  let mp := Int.emod (m + 9) 12
  let doy := Int.fdiv (153 * mp + 2) 5 + d - 1
  let doe := yoe * 365 + Int.fdiv yoe 4 - Int.fdiv yoe 100 + doy
  era * 146097 + doe - 719468

/-- Civil date `(y, m, d)` of the day `z` days after the Unix epoch. -/
def civilFromDays (z : Int) : Int × Int × Int :=
  let z' := z + 719468
  let era := Int.fdiv z' 146097
  let doe := z' - era * 146097
  let yoe := Int.fdiv (doe - Int.fdiv doe 1460 + Int.fdiv doe 36524 - Int.fdiv doe 146096) 365
  let y := yoe + era * 400
  let doy := doe - (365 * yoe + Int.fdiv yoe 4 - Int.fdiv yoe 100)
  let mp := Int.fdiv (5 * doy + 2) 153
  let d := doy - Int.fdiv (153 * mp + 2) 5 + 1
  let m := mp + (if mp < 10 then 3 else -9)
  (if m ≤ 2 then y + 1 else y, m, d)

/-- Milliseconds in one day. -/
def msPerDay : Int := 86400000

/-- Epoch milliseconds of UTC midnight of `y-m-d`, with the same range
validation an ISO `Date` parse performs (`none` is an Invalid Date). -/
def dateMs (y m d : Nat) : Option Int :=
  if 1 ≤ m ∧ m ≤ 12 ∧ 1 ≤ d ∧ d ≤ monthLen y m then
    some (msPerDay * daysFromCivil y m d)
  else none

/-- Milliseconds past midnight for a validated time of day. -/
def timeMs (h mi s ms : Nat) : Option Int :=
  if h ≤ 23 ∧ mi ≤ 59 ∧ s ≤ 59 ∧ ms ≤ 999 then
    some (((h * 60 + mi) * 60 + s) * 1000 + ms)
  else none

/-- Model of `new Date(s).getTime()` for the string shapes the application
produces: date-only inputs (`YYYY-MM-DD`, parsed at UTC midnight) and ISO
timestamps (`YYYY-MM-DDTHH:MM:SS[.mmm]Z`).  `none` models an Invalid Date. -/
def parseDate (str : String) : Option Int :=
  match str.toList with
  | [y1, y2, y3, y4, '-', mo1, mo2, '-', dd1, dd2] => do
      let y ← fourDigits y1 y2 y3 y4
      let m ← twoDigits mo1 mo2
      let d ← twoDigits dd1 dd2
      dateMs y m d
  | [y1, y2, y3, y4, '-', mo1, mo2, '-', dd1, dd2, 'T',
     h1, h2, ':', i1, i2, ':', s1, s2, 'Z'] => do
      let y ← fourDigits y1 y2 y3 y4
      let m ← twoDigits mo1 mo2
      let d ← twoDigits dd1 dd2
      let hh ← twoDigits h1 h2
      let mi ← twoDigits i1 i2
      let ss ← twoDigits s1 s2
      let date ← dateMs y m d
      let t ← timeMs hh mi ss 0
      pure (date + t)
  | [y1, y2, y3, y4, '-', mo1, mo2, '-', dd1, dd2, 'T',
     h1, h2, ':', i1, i2, ':', s1, s2, '.', f1, f2, f3, 'Z'] => do
      let y ← fourDigits y1 y2 y3 y4
      let m ← twoDigits mo1 mo2
      let d ← twoDigits dd1 dd2
      let hh ← twoDigits h1 h2
      let mi ← twoDigits i1 i2
      let ss ← twoDigits s1 s2
      let frac ← threeDigits f1 f2 f3
      let date ← dateMs y m d
      let t ← timeMs hh mi ss frac
      pure (date + t)
  | _ => none

/-- Day number (days since epoch, floored) of an epoch-millisecond instant;
this is the UTC-as-local calendar date underlying a timestamp. -/
def dayNumber (t : Int) : Int := Int.fdiv t msPerDay

/-- Model of `daysBetween(a, b)` from src/App.tsx (string reference):
`Math.floor((d2.getTime() - d1.getTime()) / 86400000)`, returning 0 when
either date is invalid. -/
def daysBetween (a b : String) : Int :=
  match parseDate a, parseDate b with
  | some t1, some t2 => Int.fdiv (t2 - t1) msPerDay
  | _, _ => 0

/-- Model of `daysBetween(a)` with the defaulted reference `new Date()`:
the current instant `now` (epoch ms) is always a valid date. -/
def daysBetweenNow (a : String) (now : Int) : Int :=
  match parseDate a with
  | some t1 => Int.fdiv (now - t1) msPerDay
  | none => 0

/-! ### Locale rendering (deterministic model of `toLocaleDateString`) -/

/-- Render the civil date of epoch day `z` in en-US `M/D/YYYY` style. -/
def renderDay (z : Int) : String :=
  let c := civilFromDays z
  toString c.2.1 ++ "/" ++ toString c.2.2 ++ "/" ++ toString c.1

/-- Model of `formatDate(d)` from src/App.tsx: empty for a falsy or invalid
date, otherwise the locale date string of the parsed instant. -/
def formatDate (d : String) : String :=
  if d = "" then ""
  else
    match parseDate d with
    | some t => renderDay (dayNumber t)
    | none => ""

/-- Zero-padded two-digit rendering used by the locale time model. -/
def pad2 (n : Int) : String := if n < 10 then "0" ++ toString n else toString n

/-- Deterministic model of `new Date(t).toLocaleString()`. -/
def renderDateTime (t : Int) : String :=
  let rest := t - msPerDay * dayNumber t
  renderDay (dayNumber t) ++ ", " ++
    pad2 (Int.fdiv rest 3600000) ++ ":" ++
    pad2 (Int.emod (Int.fdiv rest 60000) 60) ++ ":" ++
    pad2 (Int.emod (Int.fdiv rest 1000) 60)

/-! ### Data model -/

/-- An asset, as registered by the `Assets` form (src/App.tsx).  `price` is
the normalized number-or-null payload field; all other fields are the form's
strings.  The string-to-number normalization `f.price ? Number(f.price) : null`
happens at the form boundary and is modelled as the `Option Rat` value it
produces. -/
structure Asset where
  asset_id : String
  id_code : String
  name : String
  brand : String
  model : String
  vendor : String
  serial : String
  purchase_date : String
  price : Option Rat
deriving DecidableEq, Repr

/-- One borrow record, as created by the `Borrow` form (src/App.tsx).
Nullable fields are `Option String`; `returned_at` is `null` until the loan is
returned. -/
structure BorrowRecord where
  id : String
  asset_id : String
  asset_name : String
  peripherals : String
  lender_name : String
  borrower_name : String
  borrower_dept : String
  start_date : String
  end_date : Option String
  returned_at : Option String
  borrower_sign : Option String
  created_at : String
deriving DecidableEq, Repr

/-- JavaScript truthiness of a nullable string: `null` and `""` are falsy. -/
def truthyOpt (o : Option String) : Bool :=
  match o with
  | none => false
  | some s => decide ¬(s = "")

/-! ### Ledger mutations: assets -/

/-- Model of `Assets.submit` combined with `createAsset` (src/App.tsx
lines 359-368 and 228): required-field check, the three uniqueness checks
against the whole collection, then prepend.  On a validation failure the
source calls `setErr` and returns without touching the collection; here that
is `Except.error` with the source's message. -/
def registerAsset (assets : List Asset) (f : Asset) : Except String (List Asset) :=
  if f.asset_id = "" ∨ f.id_code = "" ∨ f.name = "" ∨ f.serial = "" then
    Except.error "กรอก Asset ID / ID CODE / ชื่อ / Serial"
  else if assets.any (fun a => a.asset_id == f.asset_id) then
    Except.error "Asset ID ซ้ำ"
  else if assets.any (fun a => a.id_code == f.id_code) then
    Except.error "ID CODE ซ้ำ"
  else if assets.any (fun a => a.serial == f.serial) then
    Except.error "Serial ซ้ำ"
  else
    Except.ok (f :: assets)

/-- The asset collection after a `submit`: updated on success, unchanged when
validation failed. -/
def registerAssetStep (assets : List Asset) (f : Asset) : List Asset :=
  match registerAsset assets f with
  | Except.ok l => l
  | Except.error _ => assets

/-- Model of `updateAsset` (src/App.tsx line 230): replace the asset whose
`asset_id` matches by the spread-merge of the patch, leave the rest alone.
The `saveEdit` call site passes a full record, so the merge `{...a, ...f}`
is the patch record itself. -/
def updateAsset (assets : List Asset) (id : String) (f : Asset) : List Asset :=
  assets.map (fun a => if a.asset_id = id then f else a)

/-- Model of `deleteAsset` (src/App.tsx line 229). -/
def deleteAsset (assets : List Asset) (id : String) : List Asset :=
  assets.filter (fun a => decide ¬(a.asset_id = id))

/-- Model of `Assets.saveEdit` (src/App.tsx lines 372-380): required-field
check, then the three uniqueness checks excluding the asset being edited
(`a.asset_id !== editingId`), then `updateAsset`. -/
def saveEdit (assets : List Asset) (editingId : String) (f : Asset) :
    Except String (List Asset) :=
  if f.asset_id = "" ∨ f.id_code = "" ∨ f.name = "" ∨ f.serial = "" then
    Except.error "กรอก Asset ID / ID CODE / ชื่อ / Serial"
  else if assets.any (fun a => a.asset_id == f.asset_id && a.asset_id != editingId) then
    Except.error "Asset ID ซ้ำ"
  else if assets.any (fun a => a.id_code == f.id_code && a.asset_id != editingId) then
    Except.error "ID CODE ซ้ำ"
  else if assets.any (fun a => a.serial == f.serial && a.asset_id != editingId) then
    Except.error "Serial ซ้ำ"
  else
    Except.ok (updateAsset assets editingId f)

/-- Pairwise distinctness of the three key fields across a collection — the
uniqueness invariant of §3 of the specification. -/
def keysDistinct (assets : List Asset) : Prop :=
  assets.Pairwise
    (fun a b => a.asset_id ≠ b.asset_id ∧ a.id_code ≠ b.id_code ∧ a.serial ≠ b.serial)

/-! ### Ledger mutations: borrow records -/

/-- Model of `createBorrow` (src/App.tsx line 231): prepend, report success. -/
def createBorrow (borrows : List BorrowRecord) (rec : BorrowRecord) :
    List BorrowRecord × Bool :=
  (rec :: borrows, true)

/-- Model of `updateBorrow` (src/App.tsx line 232): spread-merge the patch
into the record whose `id` matches, leave every other record alone, report
success.  The JavaScript merge `{...b, ...patch}` is modelled as a record
transformer applied to the matching record. -/
def updateBorrow (borrows : List BorrowRecord) (id : String)
    (patch : BorrowRecord → BorrowRecord) : List BorrowRecord × Bool :=
  (borrows.map (fun b => if b.id = id then patch b else b), true)

/-- Model of `returnBorrow` (src/App.tsx line 233): stamp `returned_at` with
the current ISO timestamp on the matching record, report success. -/
def returnBorrow (borrows : List BorrowRecord) (id : String) (ts : String) :
    List BorrowRecord × Bool :=
  (borrows.map (fun b => if b.id = id then { b with returned_at := some ts } else b), true)

/-! ### Overdue classification (App / Dashboard, src/App.tsx lines 221-225, 301-303) -/

/-- Model of `active = borrows.filter(b => !b.returned_at)`. -/
def activeRecords (borrows : List BorrowRecord) : List BorrowRecord :=
  borrows.filter (fun b => !truthyOpt b.returned_at)

/-- Model of `Dashboard.overdue = active.filter(b => daysBetween(b.start_date) >= 14)`;
the dashboard card count `overdueCount` in `App` is the length of the same
filter. -/
def overdueList (borrows : List BorrowRecord) (now : Int) : List BorrowRecord :=
  (activeRecords borrows).filter (fun b => decide (14 ≤ daysBetweenNow b.start_date now))

/-- Model of `overdueCount = active.filter(b => daysBetween(b.start_date) >= 14).length`. -/
def overdueCount (borrows : List BorrowRecord) (now : Int) : Nat :=
  (overdueList borrows now).length

/-- Model of `Dashboard.normal = active.filter(b => daysBetween(b.start_date) < 14)`. -/
def normalList (borrows : List BorrowRecord) (now : Int) : List BorrowRecord :=
  (activeRecords borrows).filter (fun b => decide (daysBetweenNow b.start_date now < 14))

/-! ### Report filter (Report.filtered, src/App.tsx lines 724-733) -/

/-- Model of `sd < bound` on two JS `Date`s: comparisons involving an Invalid
Date (`NaN` value) are false. -/
def jsDateLt (x y : Option Int) : Bool :=
  match x, y with
  | some a, some b => decide (a < b)
  | _, _ => false

/-- Model of `sd > bound` on two JS `Date`s, with the same `NaN` behaviour. -/
def jsDateGt (x y : Option Int) : Bool :=
  match x, y with
  | some a, some b => decide (b < a)
  | _, _ => false

/-- Model of the per-record predicate of `Report.filtered`: an empty bound or
department string is falsy and disables its clause, exactly as in the source. -/
def keepRecord (fromD toD dept : String) (r : BorrowRecord) : Bool :=
  let sd := parseDate r.start_date
  if fromD ≠ "" ∧ jsDateLt sd (parseDate fromD) = true then false
  else if toD ≠ "" ∧ jsDateGt sd (parseDate toD) = true then false
  else if dept ≠ "" ∧ r.borrower_dept ≠ dept then false
  else true

/-- Model of `Report.filtered = borrows.filter(r => ...)`. -/
def filterRecords (borrows : List BorrowRecord) (fromD toD dept : String) :
    List BorrowRecord :=
  borrows.filter (keepRecord fromD toD dept)

/-! ### Quick-add reference-list operations -/

/-- Drop leading whitespace characters. -/
def dropLeadingWs : List Char → List Char
  | [] => []
  | c :: cs => if c.isWhitespace then dropLeadingWs cs else c :: cs

/-- Model of `String.prototype.trim()`: strip whitespace from both ends. -/
def jsTrim (s : String) : String :=
  String.mk ((dropLeadingWs (dropLeadingWs s.toList).reverse).reverse)

/-- A `models` reference-list entry: a `(brand, name)` pair. -/
structure ModelRef where
  brand : String
  name : String
deriving DecidableEq, Repr

/-- Model of `Assets.confirmAddBrand` (src/App.tsx lines 337-343), restricted
to its effect on the `brands` list: trim, ignore an empty input, append only
when not already present. -/
def confirmAddBrand (brands : List String) (newBrand : String) : List String :=
  let v := jsTrim newBrand
  if v = "" then brands
  else if v ∈ brands then brands
  else brands ++ [v]

/-- Model of `Assets.confirmAddModel` (src/App.tsx lines 344-351), restricted
to its effect on the `models` list: require a selected brand, trim, ignore an
empty input, append only when no entry with the same `(brand, name)` exists. -/
def confirmAddModel (models : List ModelRef) (currentBrand : String)
    (newModel : String) : List ModelRef :=
  if currentBrand = "" then models
  else
    let v := jsTrim newModel
    if v = "" then models
    else
      match models.find? (fun m => m.name == v && m.brand == currentBrand) with
      | some _ => models
      | none => models ++ [{ brand := currentBrand, name := v }]

/-- Model of `Assets.confirmAddVendor` (src/App.tsx lines 352-357) on the
`vendors` list. -/
def confirmAddVendor (vendors : List String) (newVendor : String) : List String :=
  let v := jsTrim newVendor
  if v = "" then vendors
  else if v ∈ vendors then vendors
  else vendors ++ [v]

/-- Model of `Borrow.confirmAddDept` (src/App.tsx lines 575-580) on the
`depts` list. -/
def confirmAddDept (depts : List String) (newDept : String) : List String :=
  let v := jsTrim newDept
  if v = "" then depts
  else if v ∈ depts then depts
  else depts ++ [v]

/-! ### Report export (Report.exportXLSX / Report.printPDF, src/App.tsx) -/

/-- A spreadsheet cell: the source pushes strings and one numeric duration. -/
inductive Cell where
  | s (v : String)
  | n (v : Int)
deriving DecidableEq, Repr

/-- The fixed header labels shared by the spreadsheet and the printable
document. -/
def reportHeaders : List String :=
  ["Asset ID", "ชื่อเครื่อง", "ผู้ยืม", "แผนก", "ผู้ให้ยืม",
   "เริ่มยืม", "กำหนดคืน", "คืนจริง", "ระยะเวลา(วัน)", "ลายเซ็น"]

/-- Duration column: `r.returned_at ? daysBetween(start, returned_at)
: daysBetween(start)` — a truthy `returned_at` is the reference, otherwise
the current instant. -/
def durationDays (r : BorrowRecord) (now : Int) : Int :=
  match r.returned_at with
  | some ts => if ts = "" then daysBetweenNow r.start_date now else daysBetween r.start_date ts
  | none => daysBetweenNow r.start_date now

/-- Rendering of an optional date column: `x ? formatDate(x) : ""`. -/
def optDateCell (o : Option String) : String :=
  if truthyOpt o then formatDate (o.getD "") else ""

/-- One `aoa` data row of the xlsx export (src/App.tsx lines 788-801). -/
def xlsxRow (now : Int) (r : BorrowRecord) : List Cell :=
  [Cell.s r.asset_id, Cell.s r.asset_name, Cell.s r.borrower_name,
   Cell.s r.borrower_dept, Cell.s r.lender_name,
   Cell.s (formatDate r.start_date),
   Cell.s (optDateCell r.end_date),
   Cell.s (optDateCell r.returned_at),
   Cell.n (durationDays r now),
   Cell.s ""]

/-- The full array-of-arrays sheet content: title row, subtitle row with the
locale timestamp, a blank spacer row, the header row, then one row per
filtered record. -/
def xlsxAoa (orgName : String) (now : Int) (filtered : List BorrowRecord) :
    List (List Cell) :=
  [[Cell.s orgName],
   [Cell.s "รายงานการยืม-คืน", Cell.s (renderDateTime now)],
   [Cell.s ""],
   reportHeaders.map Cell.s]
  ++ filtered.map (xlsxRow now)

/-- The `EmptyExportWarning` notice text of the xlsx path. -/
def emptyExportNote : String := "ไม่มีข้อมูลตามตัวกรองที่จะส่งออก"

/-- Model of `Report.exportXLSX` (src/App.tsx lines 759-817) as its
observable outcome: with zero filtered records the function notifies and
returns before any file is produced; otherwise a workbook with the `aoa`
rows is written (the dynamic-loader and fallback branches all still produce
a downloadable file carrying the same rows, so the success payload stands
for any of them).  First component: the produced sheet, if any; second: the
user-facing note. -/
def exportXLSX (filtered : List BorrowRecord) (orgName : String) (now : Int) :
    Option (List (List Cell)) × String :=
  if filtered.length = 0 then
    (none, emptyExportNote)
  else
    (some (xlsxAoa orgName now filtered),
     "ส่งออก .xlsx เรียบร้อย (" ++ toString filtered.length ++ " รายการ)")

/-- Signature column of the printable document: the captured image inline
when present, else a placeholder dash. -/
def signCell (o : Option String) : String :=
  if truthyOpt o then "<img src='" ++ o.getD "" ++ "' style='height:28px'/>" else "-"

/-- One table row of the printable document (src/App.tsx lines 820-822). -/
def printRow (now : Int) (r : BorrowRecord) : String :=
  "<tr><td>" ++ r.asset_id ++ "</td><td>" ++ r.asset_name ++ "</td><td>" ++
    r.borrower_name ++ "</td><td>" ++ r.borrower_dept ++ "</td><td>" ++
    r.lender_name ++ "</td><td>" ++ formatDate r.start_date ++ "</td><td>" ++
    optDateCell r.end_date ++ "</td><td>" ++ optDateCell r.returned_at ++
    "</td><td>" ++ toString (durationDays r now) ++ "</td><td>" ++
    signCell r.borrower_sign ++ "</td></tr>"

/-- The concatenated data rows, `filtered.map(...).join("")`. -/
def printRowsJoined (now : Int) (filtered : List BorrowRecord) : String :=
  String.join (filtered.map (printRow now))

/-- The single placeholder row rendered when there is no data. -/
def noDataRow : String := "<tr><td colspan='10' class='muted'>ไม่มีข้อมูล</td></tr>"

/-- Table body of the printable document: `rows || noDataRow` — the joined
rows when non-empty (falsiness of the empty string), else the placeholder. -/
def printTbody (now : Int) (filtered : List BorrowRecord) : String :=
  let rows := printRowsJoined now filtered
  if rows = "" then noDataRow else rows

/-- Logo image tag, `logo ? <img .../> : ""`. -/
def logoTag (logo : String) : String :=
  if logo = "" then ""
  else "<img src='" ++ logo ++ "' style='height:48px;margin-right:8px'/>"

/-- Document text before the table body (src/App.tsx line 824); literal
braces of the inline CSS are escaped. -/
def printDocHead (orgName logo : String) (now : Int) : String :=
  "<!doctype html><html><head><meta charset='utf-8'><title>Report</title>" ++
  "<style>body\x7bfont-family:ui-sans-serif,system-ui,-apple-system,Segoe UI,Roboto,Helvetica,Arial;color:#0f172a\x7d" ++
  "table\x7bwidth:100%;border-collapse:collapse;font-size:12px\x7d" ++
  "th,td\x7bborder:1px solid #e5e7eb;padding:6px;text-align:left\x7d" ++
  "thead\x7bbackground:#f8fafc\x7d.muted\x7bcolor:#64748b;font-size:11px\x7d" ++
  "@media print\x7b@page\x7bmargin:12mm\x7d\x7d</style></head><body>" ++
  "<div style='display:flex;align-items:center;font-weight:700;margin-bottom:8px'>" ++
  logoTag logo ++ "<div>" ++ orgName ++ "</div></div>" ++
  "<div class='muted' style='margin-bottom:6px'>รายงานการยืม-คืน • พิมพ์เมื่อ " ++
  renderDateTime now ++ "</div><table><thead><tr>" ++
  String.join (reportHeaders.map (fun h => "<th>" ++ h ++ "</th>")) ++
  "</tr></thead><tbody>"

/-- Document text after the table body, including the auto-print script. -/
def printDocTail : String :=
  "</tbody></table><script>window.addEventListener('load',()=>\x7bsetTimeout(()=>\x7bwindow.print();\x7d,100)\x7d);</script></body></html>"

/-- The complete printable document for a filtered record set. -/
def printHTML (orgName logo : String) (now : Int) (filtered : List BorrowRecord) :
    String :=
  printDocHead orgName logo now ++ printTbody now filtered ++ printDocTail

/-- Model of `Report.printPDF` (src/App.tsx lines 819-828): when the popup
can be opened the document is written into it; a blocked popup fails visibly
with no output. -/
def printPDF (popupOk : Bool) (orgName logo : String) (now : Int)
    (filtered : List BorrowRecord) : Option String :=
  if popupOk then some (printHTML orgName logo now filtered) else none

/-! ### Specification-side comparison definition for the overdue classifier -/

/-- Elapsed days as §4.3 of the specification words it: both endpoints
normalized to local-date granularity (their calendar day number) before
subtraction.  This is the comparison definition for the refinement claim
about `daysBetween`; it is not what the source computes. -/
def calendarDaysBetween (a b : String) : Option Int :=
  match parseDate a, parseDate b with
  | some t1, some t2 => some (dayNumber t2 - dayNumber t1)
  | _, _ => none

/-! ### Claim theorems -/

/-- C6: `filterRecords` with an empty filter (no from, no to, no department)
returns all records in their original order, and for every filter the output
is a sublist of the input — the relative order of records is preserved and
nothing is re-sorted. -/
theorem c6_filter_identity_and_order (borrows : List BorrowRecord)
    (fromD toD dept : String) :
    filterRecords borrows "" "" "" = borrows
    ∧ (filterRecords borrows fromD toD dept).Sublist borrows := by
  constructor
  · rw [filterRecords, List.filter_eq_self]
    intro r _
    simp [keepRecord]
  · exact List.filter_sublist _

/-- C7: with zero filtered records the spreadsheet export is a no-op that
notifies the user (`emptyExportNote`) and produces no file, while the
printable export still produces a document whose table body is the single
"no data" row. -/
theorem c7_empty_export_policy (orgName logo : String) (now : Int) :
    exportXLSX [] orgName now = (none, emptyExportNote)
    ∧ printTbody now [] = noDataRow
    ∧ printPDF true orgName logo now [] =
        some (printDocHead orgName logo now ++ noDataRow ++ printDocTail) := by
  refine ⟨rfl, ?_, ?_⟩
  · simp [printTbody, printRowsJoined, String.join]
  · simp [printPDF, printHTML, printTbody, printRowsJoined, String.join]

/-- C8: whenever either argument of `daysBetween` fails to parse as a date,
the result is 0 rather than an error; likewise for the defaulted-reference
form when the start date fails to parse.  Totality over arbitrary strings is
inherent in the definition. -/
theorem c8_invalid_dates_yield_zero (a b : String) (now : Int)
    (h : parseDate a = none ∨ parseDate b = none) :
    daysBetween a b = 0 ∧ (parseDate a = none → daysBetweenNow a now = 0) := by
  constructor
  · unfold daysBetween
    rcases h with h | h
    · rw [h]
    · rw [h]
      cases parseDate a <;> rfl
  · intro ha
    unfold daysBetweenNow
    rw [ha]

/-- Witness for C8 at the concrete unparseable input `"hello"`. -/
theorem c8_witness :
    daysBetween "hello" "2024-01-01" = 0
    ∧ (parseDate "hello" = none → daysBetweenNow "hello" 0 = 0) :=
  c8_invalid_dates_yield_zero "hello" "2024-01-01" 0 (Or.inl (by decide))

/-- C3 (counterexample): `daysBetween` does not normalize its endpoints to
local-date granularity.  At a parseable pair whose first endpoint carries a
time of day, the source computes the floor of the elapsed wall-clock time
(0 days for 12 elapsed hours) while the specification's calendar-date
subtraction gives 1; so the claim as stated is false. -/
theorem c3_counterexample :
    daysBetween "2024-01-01T12:00:00Z" "2024-01-02" = 0
    ∧ calendarDaysBetween "2024-01-01T12:00:00Z" "2024-01-02" = some 1
    ∧ parseDate "2024-01-01T12:00:00Z" ≠ none ∧ parseDate "2024-01-02" ≠ none := by
  refine ⟨by decide, by decide, by decide, by decide⟩

/-- C3 (amended): for every pair of parseable dates, `elapsedDays` equals the
floor of the raw millisecond difference divided by 86,400,000 — whole elapsed
24-hour periods, without normalizing the endpoints to date granularity.  For
endpoints that parse to midnight instants (in particular the application's
date-only `YYYY-MM-DD` strings) this coincides with the calendar-day
difference, and `elapsedDays("2024-01-01", "2024-01-02") == 1`. -/
theorem c3_elapsed_days_amended (a b : String) (t1 t2 : Int)
    (ha : parseDate a = some t1) (hb : parseDate b = some t2) :
    daysBetween a b = Int.fdiv (t2 - t1) msPerDay
    ∧ (∀ k j : Int, t1 = msPerDay * k → t2 = msPerDay * j →
        daysBetween a b = j - k ∧ calendarDaysBetween a b = some (j - k))
    ∧ daysBetween "2024-01-01" "2024-01-02" = 1 := by
  have hraw : daysBetween a b = Int.fdiv (t2 - t1) msPerDay := by
    unfold daysBetween
    rw [ha, hb]
  refine ⟨hraw, ?_, by decide⟩
  intro k j hk hj
  have hms : (msPerDay : Int) ≠ 0 := by decide
  constructor
  · rw [hraw, hk, hj, ← Int.mul_sub]
    exact Int.mul_fdiv_cancel_left _ hms
  · unfold calendarDaysBetween
    rw [ha, hb, hk, hj]
    show some ((msPerDay * j).fdiv msPerDay - (msPerDay * k).fdiv msPerDay) = some (j - k)
    rw [Int.mul_fdiv_cancel_left _ hms, Int.mul_fdiv_cancel_left _ hms]

/-- Witness for C3's amended theorem at the application's date-only inputs. -/
theorem c3_witness :
    daysBetween "2024-01-01" "2024-01-02" = 19724 - 19723
    ∧ calendarDaysBetween "2024-01-01" "2024-01-02" = some (19724 - 19723) :=
  (c3_elapsed_days_amended "2024-01-01" "2024-01-02"
      (86400000 * 19723) (86400000 * 19724) (by decide) (by decide)).2.1
    19723 19724 (by decide) (by decide)

/-- A map whose function fixes every element of the list is the identity. -/
theorem map_fixes_eq_self {α : Type} (l : List α) (g : α → α)
    (h : ∀ a ∈ l, g a = a) : l.map g = l := by
  induction l with
  | nil => rfl
  | cons x xs ih =>
    simp only [List.map_cons, List.cons.injEq]
    exact ⟨h x (by simp), ih (fun a ha => h a (by simp [ha]))⟩

/-- C10: `updateBorrow` and `returnBorrow` always report success; when the id
matches no record the collection is left entirely unchanged, and when it does
match every record at a position holding a different id is unchanged. -/
theorem c10_borrow_mutation_frame (borrows : List BorrowRecord) (id : String)
    (patch : BorrowRecord → BorrowRecord) (ts : String) :
    ((∀ b ∈ borrows, b.id ≠ id) →
        updateBorrow borrows id patch = (borrows, true)
        ∧ returnBorrow borrows id ts = (borrows, true))
    ∧ (updateBorrow borrows id patch).2 = true
    ∧ (returnBorrow borrows id ts).2 = true
    ∧ (∀ (i : Nat) (b : BorrowRecord), borrows[i]? = some b → b.id ≠ id →
        (updateBorrow borrows id patch).1[i]? = some b
        ∧ (returnBorrow borrows id ts).1[i]? = some b) := by
  refine ⟨?_, rfl, rfl, ?_⟩
  · intro h
    constructor
    · show (borrows.map _, true) = (borrows, true)
      rw [map_fixes_eq_self]
      intro b hb
      rw [if_neg (h b hb)]
    · show (borrows.map _, true) = (borrows, true)
      rw [map_fixes_eq_self]
      intro b hb
      rw [if_neg (h b hb)]
  · intro i b hi hb
    constructor
    · show (borrows.map _)[i]? = some b
      rw [List.getElem?_map, hi]
      simp [if_neg hb]
    · show (borrows.map _)[i]? = some b
      rw [List.getElem?_map, hi]
      simp [if_neg hb]

/-- Concrete borrow record used by the C10 witness. -/
def frameRec : BorrowRecord :=
  { id := "r1", asset_id := "A1", asset_name := "Infusion Pump",
    peripherals := "", lender_name := "L", borrower_name := "B",
    borrower_dept := "ICU", start_date := "2024-01-01", end_date := none,
    returned_at := none, borrower_sign := some "sig",
    created_at := "2024-01-01T00:00:00.000Z" }

/-- Witness for C10: mutating with an id that matches nothing reports success
and leaves the single-record collection unchanged. -/
theorem c10_witness :
    updateBorrow [frameRec] "zz" (fun b => { b with lender_name := "X" })
        = ([frameRec], true)
    ∧ returnBorrow [frameRec] "zz" "2024-01-05T00:00:00.000Z" = ([frameRec], true) :=
  (c10_borrow_mutation_frame [frameRec] "zz" (fun b => { b with lender_name := "X" })
      "2024-01-05T00:00:00.000Z").1 (by decide)

/-- Adding a value already present (after trimming) leaves the list as is. -/
theorem addBrand_of_mem (l : List String) (v : String) (h : jsTrim v ∈ l) :
    confirmAddBrand l v = l := by
  by_cases h1 : jsTrim v = "" <;> simp [confirmAddBrand, h1, h]

/-- Quick-adding a brand twice is the same as adding it once. -/
theorem addBrand_idem (l : List String) (v : String) :
    confirmAddBrand (confirmAddBrand l v) v = confirmAddBrand l v := by
  by_cases h1 : jsTrim v = ""
  · simp [confirmAddBrand, h1]
  · by_cases h2 : jsTrim v ∈ l
    · simp [confirmAddBrand, h1, h2]
    · simp [confirmAddBrand, h1, h2]

/-- Quick-adding a brand never introduces a duplicate entry. -/
theorem addBrand_nodup (l : List String) (v : String) (h : l.Nodup) :
    (confirmAddBrand l v).Nodup := by
  by_cases h1 : jsTrim v = ""
  · simpa [confirmAddBrand, h1] using h
  · by_cases h2 : jsTrim v ∈ l
    · simpa [confirmAddBrand, h1, h2] using h
    · simp [confirmAddBrand, h1, h2, List.nodup_append, h, List.disjoint_singleton]

/-- The vendor quick-add has the same body as the brand quick-add. -/
theorem addVendor_eq_addBrand (l : List String) (v : String) :
    confirmAddVendor l v = confirmAddBrand l v := rfl

/-- The department quick-add has the same body as the brand quick-add. -/
theorem addDept_eq_addBrand (l : List String) (v : String) :
    confirmAddDept l v = confirmAddBrand l v := rfl

/-- Adding a model whose `(brand, name)` pair is already present leaves the
list as is. -/
theorem addModel_of_mem (models : List ModelRef) (cb v : String)
    (h : ({ brand := cb, name := jsTrim v } : ModelRef) ∈ models) :
    confirmAddModel models cb v = models := by
  by_cases h0 : cb = ""
  · simp [confirmAddModel, h0]
  · by_cases h1 : jsTrim v = ""
    · simp [confirmAddModel, h0, h1]
    · cases hf : models.find? (fun m => m.name == jsTrim v && m.brand == cb) with
      | some m => simp [confirmAddModel, h0, h1, hf]
      | none =>
          exfalso
          have := List.find?_eq_none.mp hf _ h
          simp at this

/-- Quick-adding a model twice is the same as adding it once. -/
theorem addModel_idem (models : List ModelRef) (cb v : String) :
    confirmAddModel (confirmAddModel models cb v) cb v = confirmAddModel models cb v := by
  by_cases h0 : cb = ""
  · simp [confirmAddModel, h0]
  · by_cases h1 : jsTrim v = ""
    · simp [confirmAddModel, h0, h1]
    · cases hf : models.find? (fun m => m.name == jsTrim v && m.brand == cb) with
      | some m =>
          have hm : confirmAddModel models cb v = models := by
            simp [confirmAddModel, h0, h1, hf]
          rw [hm, hm]
      | none =>
          have hm : confirmAddModel models cb v
              = models ++ [{ brand := cb, name := jsTrim v }] := by
            simp [confirmAddModel, h0, h1, hf]
          rw [hm]
          exact addModel_of_mem _ _ _ (by simp)

/-- Quick-adding a model never introduces a duplicate `(brand, name)` pair. -/
theorem addModel_nodup (models : List ModelRef) (cb v : String)
    (h : models.Nodup) : (confirmAddModel models cb v).Nodup := by
  by_cases h0 : cb = ""
  · simpa [confirmAddModel, h0] using h
  · by_cases h1 : jsTrim v = ""
    · simpa [confirmAddModel, h0, h1] using h
    · cases hf : models.find? (fun m => m.name == jsTrim v && m.brand == cb) with
      | some m => simpa [confirmAddModel, h0, h1, hf] using h
      | none =>
          have hnm : ({ brand := cb, name := jsTrim v } : ModelRef) ∉ models := by
            intro hmem
            have := List.find?_eq_none.mp hf _ hmem
            simp at this
          simp [confirmAddModel, h0, h1, hf, List.nodup_append, h,
                List.disjoint_singleton, hnm]

/-- C9: every quick-add operation on a reference list deduplicates — adding a
value already present (for models, an identical `(brand, name)` pair) leaves
the list unchanged, quick-add is idempotent, and a list without duplicates
never acquires one. -/
theorem c9_quick_add_dedup (brands vendors depts : List String)
    (models : List ModelRef) (vb vm vv vd cb : String) :
    ((jsTrim vb ∈ brands → confirmAddBrand brands vb = brands)
      ∧ confirmAddBrand (confirmAddBrand brands vb) vb = confirmAddBrand brands vb
      ∧ (brands.Nodup → (confirmAddBrand brands vb).Nodup))
    ∧ ((({ brand := cb, name := jsTrim vm } : ModelRef) ∈ models →
          confirmAddModel models cb vm = models)
      ∧ confirmAddModel (confirmAddModel models cb vm) cb vm
          = confirmAddModel models cb vm
      ∧ (models.Nodup → (confirmAddModel models cb vm).Nodup))
    ∧ ((jsTrim vv ∈ vendors → confirmAddVendor vendors vv = vendors)
      ∧ confirmAddVendor (confirmAddVendor vendors vv) vv = confirmAddVendor vendors vv
      ∧ (vendors.Nodup → (confirmAddVendor vendors vv).Nodup))
    ∧ ((jsTrim vd ∈ depts → confirmAddDept depts vd = depts)
      ∧ confirmAddDept (confirmAddDept depts vd) vd = confirmAddDept depts vd
      ∧ (depts.Nodup → (confirmAddDept depts vd).Nodup)) := by
  refine ⟨⟨fun h => addBrand_of_mem _ _ h, addBrand_idem _ _,
            fun h => addBrand_nodup _ _ h⟩,
          ⟨fun h => addModel_of_mem _ _ _ h, addModel_idem _ _ _,
            fun h => addModel_nodup _ _ _ h⟩,
          ⟨fun h => addBrand_of_mem _ _ h, ?_, fun h => addBrand_nodup _ _ h⟩,
          ⟨fun h => addBrand_of_mem _ _ h, ?_, fun h => addBrand_nodup _ _ h⟩⟩
  · exact addBrand_idem _ _
  · exact addBrand_idem _ _

/-- Witness for C9: re-adding the present brand `"GE"` (with surrounding
whitespace trimmed) leaves the list unchanged, and adding a new department
to a duplicate-free list keeps it duplicate-free. -/
theorem c9_witness :
    confirmAddBrand ["GE"] " GE " = ["GE"]
    ∧ (confirmAddDept ["ICU"] "ER").Nodup :=
  ⟨(c9_quick_add_dedup ["GE"] [] ["ICU"] [] " GE " "" "" "ER" "").1.1 (by decide),
   (c9_quick_add_dedup ["GE"] [] ["ICU"] [] " GE " "" "" "ER" "").2.2.2.2.2
     (by decide)⟩

/-- C2: for well-formed records (`returned_at` is never the empty-string
timestamp, which the application cannot produce), a record is classified
overdue on the dashboard iff it is in the collection, still active
(`returned_at == null`) and at least 14 elapsed days old; a record with
`returned_at` set is never classified overdue regardless of elapsed time;
and the dashboard's overdue count equals the number of active records
meeting the 14-day threshold. -/
theorem c2_overdue_classification (borrows : List BorrowRecord) (now : Int)
    (b : BorrowRecord)
    (hwf : ∀ r ∈ borrows, r.returned_at ≠ some "") :
    (b ∈ overdueList borrows now ↔
      b ∈ borrows ∧ b.returned_at = none ∧ 14 ≤ daysBetweenNow b.start_date now)
    ∧ (∀ s, s ≠ "" → b.returned_at = some s → b ∉ overdueList borrows now)
    ∧ overdueCount borrows now
        = (borrows.filter (fun r =>
            r.returned_at == none
              && decide (14 ≤ daysBetweenNow r.start_date now))).length := by
  have hiff : ∀ r ∈ borrows, ((!truthyOpt r.returned_at) = true ↔ r.returned_at = none) := by
    intro r hr
    cases hrt : r.returned_at with
    | none => simp [truthyOpt]
    | some s =>
        have hs : s ≠ "" := fun he => hwf r hr (by rw [hrt, he])
        simp [truthyOpt, hs]
  have hchar : b ∈ overdueList borrows now ↔
      (b ∈ borrows ∧ (!truthyOpt b.returned_at) = true)
        ∧ 14 ≤ daysBetweenNow b.start_date now := by
    simp only [overdueList, activeRecords, List.mem_filter, decide_eq_true_eq]
  refine ⟨?_, ?_, ?_⟩
  · rw [hchar]
    constructor
    · rintro ⟨⟨hbb, hbt⟩, hbd⟩
      exact ⟨hbb, (hiff b hbb).mp hbt, hbd⟩
    · rintro ⟨hbb, hbn, hbd⟩
      exact ⟨⟨hbb, (hiff b hbb).mpr hbn⟩, hbd⟩
  · intro s hs hbs hmem
    have := (hchar.mp hmem).1.2
    rw [hbs] at this
    simp [truthyOpt, hs] at this
  · rw [overdueCount, overdueList, activeRecords, List.filter_filter]
    congr 1
    apply List.filter_congr
    intro r hr
    cases hrt : r.returned_at with
    | none => simp [truthyOpt]
    | some s =>
        have hs : s ≠ "" := fun he => hwf r hr (by rw [hrt, he])
        simp [truthyOpt, hs]

/-- Concrete unreturned record, 20 days old at the witness instant. -/
def overdueRec : BorrowRecord :=
  { id := "r2", asset_id := "A2", asset_name := "Monitor",
    peripherals := "", lender_name := "L", borrower_name := "B",
    borrower_dept := "ER", start_date := "2024-01-01", end_date := none,
    returned_at := none, borrower_sign := some "sig",
    created_at := "2024-01-01T00:00:00.000Z" }

/-- Concrete unreturned record, 3 days old at the witness instant. -/
def recentRec : BorrowRecord :=
  { id := "r3", asset_id := "A3", asset_name := "Ventilator",
    peripherals := "", lender_name := "L", borrower_name := "C",
    borrower_dept := "ICU", start_date := "2024-01-18", end_date := none,
    returned_at := none, borrower_sign := some "sig",
    created_at := "2024-01-18T00:00:00.000Z" }

/-- Witness for C2: at 2024-01-21, the 20-day-old active record is classified
overdue by the dashboard filter. -/
theorem c2_witness :
    overdueRec ∈ overdueList [overdueRec, recentRec] 1705795200000 :=
  ((c2_overdue_classification [overdueRec, recentRec] 1705795200000 overdueRec
      (by decide)).1).mpr ⟨by simp, rfl, by decide⟩

/-- A three-guard bail-out chain returns true exactly when no guard fires. -/
theorem ite_false_chain (c1 c2 c3 : Prop) [Decidable c1] [Decidable c2]
    [Decidable c3] :
    ((if c1 then false else if c2 then false else if c3 then false else true) = true)
      ↔ ¬c1 ∧ ¬c2 ∧ ¬c3 := by
  split_ifs with h1 h2 h3 <;> simp_all

/-- C4: for a record with a parseable `start_date` and parseable (or absent)
bounds, `filterRecords` keeps the record iff the `from` bound is absent or
`start_date >= from`, and the `to` bound is absent or `start_date <= to`, and
the department filter is absent or the record's `borrower_dept` equals the
selected department. -/
theorem c4_filter_semantics (borrows : List BorrowRecord) (fromD toD dept : String)
    (r : BorrowRecord) (sd : Int)
    (hsd : parseDate r.start_date = some sd)
    (hf : fromD = "" ∨ ∃ tf, parseDate fromD = some tf)
    (ht : toD = "" ∨ ∃ tt, parseDate toD = some tt) :
    r ∈ filterRecords borrows fromD toD dept ↔
      r ∈ borrows
      ∧ (fromD = "" ∨ ∃ tf, parseDate fromD = some tf ∧ tf ≤ sd)
      ∧ (toD = "" ∨ ∃ tt, parseDate toD = some tt ∧ sd ≤ tt)
      ∧ (dept = "" ∨ r.borrower_dept = dept) := by
  have h1 : ¬(fromD ≠ "" ∧ jsDateLt (some sd) (parseDate fromD) = true)
      ↔ (fromD = "" ∨ ∃ tf, parseDate fromD = some tf ∧ tf ≤ sd) := by
    rcases hf with hf | ⟨tf, htf⟩
    · subst hf
      simp
    · by_cases h0 : fromD = ""
      · rw [h0, show parseDate "" = (none : Option Int) from rfl] at htf
        simp at htf
      · rw [htf]
        simp [h0, jsDateLt, Int.not_lt]
  have h2 : ¬(toD ≠ "" ∧ jsDateGt (some sd) (parseDate toD) = true)
      ↔ (toD = "" ∨ ∃ tt, parseDate toD = some tt ∧ sd ≤ tt) := by
    rcases ht with ht | ⟨tt, htt⟩
    · subst ht
      simp
    · by_cases h0 : toD = ""
      · rw [h0, show parseDate "" = (none : Option Int) from rfl] at htt
        simp at htt
      · rw [htt]
        simp [h0, jsDateGt, Int.not_lt]
  have h3 : ¬(dept ≠ "" ∧ r.borrower_dept ≠ dept)
      ↔ (dept = "" ∨ r.borrower_dept = dept) := by
    constructor
    · intro h
      by_cases hd : dept = ""
      · exact Or.inl hd
      · by_cases hb : r.borrower_dept = dept
        · exact Or.inr hb
        · exact absurd ⟨hd, hb⟩ h
    · rintro (hd | hb) ⟨hnd, hnb⟩
      · exact hnd hd
      · exact hnb hb
  have hkeep : keepRecord fromD toD dept r = true ↔
      ¬(fromD ≠ "" ∧ jsDateLt (parseDate r.start_date) (parseDate fromD) = true)
      ∧ ¬(toD ≠ "" ∧ jsDateGt (parseDate r.start_date) (parseDate toD) = true)
      ∧ ¬(dept ≠ "" ∧ r.borrower_dept ≠ dept) := by
    unfold keepRecord
    exact ite_false_chain _ _ _
  rw [hsd] at hkeep
  rw [filterRecords, List.mem_filter, hkeep, h1, h2, h3]

/-- Concrete ICU record for the C4 witness (start 2024-01-05). -/
def icuRec : BorrowRecord :=
  { id := "r4", asset_id := "A4", asset_name := "Defibrillator",
    peripherals := "", lender_name := "L", borrower_name := "D",
    borrower_dept := "ICU", start_date := "2024-01-05", end_date := none,
    returned_at := none, borrower_sign := some "sig",
    created_at := "2024-01-05T00:00:00.000Z" }

/-- Concrete ER record for the C4 witness. -/
def erRec : BorrowRecord :=
  { id := "r5", asset_id := "A5", asset_name := "Oximeter",
    peripherals := "", lender_name := "L", borrower_name := "E",
    borrower_dept := "ER", start_date := "2024-01-06", end_date := none,
    returned_at := none, borrower_sign := some "sig",
    created_at := "2024-01-06T00:00:00.000Z" }

/-- Witness for C4: with only the department filter set to `"ICU"`, the ICU
record of a mixed-department pair is kept. -/
theorem c4_witness : icuRec ∈ filterRecords [icuRec, erRec] "" "" "ICU" :=
  (c4_filter_semantics [icuRec, erRec] "" "" "ICU" icuRec (86400000 * 19727)
      (by decide) (Or.inl rfl) (Or.inl rfl)).mpr
    ⟨by simp, Or.inl rfl, Or.inl rfl, Or.inr rfl⟩

/-- A successful registration preserves pairwise-distinct keys: the payload
passed every duplicate check against the whole collection. -/
theorem registerAsset_ok_keys (assets : List Asset) (f : Asset) (l : List Asset)
    (hok : registerAsset assets f = Except.ok l) (h : keysDistinct assets) :
    keysDistinct l := by
  unfold registerAsset at hok
  split_ifs at hok with h1 h2 h3 h4
  injection hok with hok
  subst hok
  unfold keysDistinct
  rw [List.pairwise_cons]
  refine ⟨?_, h⟩
  intro a ha
  refine ⟨?_, ?_, ?_⟩
  · intro he
    exact h2 (List.any_eq_true.mpr ⟨a, ha, by simp [he]⟩)
  · intro he
    exact h3 (List.any_eq_true.mpr ⟨a, ha, by simp [he]⟩)
  · intro he
    exact h4 (List.any_eq_true.mpr ⟨a, ha, by simp [he]⟩)

/-- One `submit`, successful or rejected, preserves the key invariant. -/
theorem registerAssetStep_keys (assets : List Asset) (f : Asset)
    (h : keysDistinct assets) : keysDistinct (registerAssetStep assets f) := by
  cases hok : registerAsset assets f with
  | ok l =>
      have hs : registerAssetStep assets f = l := by simp [registerAssetStep, hok]
      rw [hs]
      exact registerAsset_ok_keys assets f l hok h
  | error e =>
      have hs : registerAssetStep assets f = assets := by simp [registerAssetStep, hok]
      rw [hs]
      exact h

/-- Every sequence of `submit` calls preserves the key invariant. -/
theorem registerAsset_foldl_keys (fs : List Asset) (assets : List Asset)
    (h : keysDistinct assets) : keysDistinct (fs.foldl registerAssetStep assets) := by
  induction fs generalizing assets with
  | nil => exact h
  | cons g gs ih => exact ih _ (registerAssetStep_keys assets g h)

/-- A payload missing a required field or duplicating a key field of an
existing asset is rejected with a validation error and leaves the collection
unchanged. -/
theorem registerAsset_rejects (assets : List Asset) (f : Asset)
    (h : f.asset_id = "" ∨ f.id_code = "" ∨ f.name = "" ∨ f.serial = ""
      ∨ ∃ a ∈ assets, a.asset_id = f.asset_id ∨ a.id_code = f.id_code
          ∨ a.serial = f.serial) :
    (∃ e, registerAsset assets f = Except.error e)
      ∧ registerAssetStep assets f = assets := by
  have herr : ∃ e, registerAsset assets f = Except.error e := by
    unfold registerAsset
    split_ifs with h1 h2 h3 h4
    · exact ⟨_, rfl⟩
    · exact ⟨_, rfl⟩
    · exact ⟨_, rfl⟩
    · exact ⟨_, rfl⟩
    · exfalso
      rcases h with he | he | he | he | ⟨a, ha, hk | hk | hk⟩
      · exact h1 (Or.inl he)
      · exact h1 (Or.inr (Or.inl he))
      · exact h1 (Or.inr (Or.inr (Or.inl he)))
      · exact h1 (Or.inr (Or.inr (Or.inr he)))
      · exact h2 (List.any_eq_true.mpr ⟨a, ha, by simp [hk]⟩)
      · exact h3 (List.any_eq_true.mpr ⟨a, ha, by simp [hk]⟩)
      · exact h4 (List.any_eq_true.mpr ⟨a, ha, by simp [hk]⟩)
  obtain ⟨e, he⟩ := herr
  exact ⟨⟨e, he⟩, by simp [registerAssetStep, he]⟩

/-- C1: starting from a collection with pairwise-distinct keys, every
sequence of `registerAsset` calls keeps `asset_id`, `id_code` and `serial`
pairwise distinct; a payload that duplicates any of the three key fields of
an existing asset, or is missing `asset_id`, `id_code`, `name` or `serial`,
is rejected with a validation error and leaves the collection unchanged. -/
theorem c1_register_preserves_unique_keys (assets fs : List Asset) (f : Asset)
    (hd : keysDistinct assets) :
    keysDistinct (fs.foldl registerAssetStep assets)
    ∧ ((f.asset_id = "" ∨ f.id_code = "" ∨ f.name = "" ∨ f.serial = ""
        ∨ ∃ a ∈ assets, a.asset_id = f.asset_id ∨ a.id_code = f.id_code
            ∨ a.serial = f.serial) →
      (∃ e, registerAsset assets f = Except.error e)
        ∧ registerAssetStep assets f = assets) :=
  ⟨registerAsset_foldl_keys fs assets hd, fun h => registerAsset_rejects assets f h⟩

/-- Concrete asset payload used by the C1 witness. -/
def regA : Asset :=
  { asset_id := "A1", id_code := "C1", name := "Infusion Pump", brand := "",
    model := "", vendor := "", serial := "S1", purchase_date := "", price := none }

/-- Concrete pre-registered asset used by the C1 witness. -/
def regB : Asset :=
  { asset_id := "A2", id_code := "C2", name := "Monitor", brand := "",
    model := "", vendor := "", serial := "S2", purchase_date := "", price := none }

/-- Witness for C1: registering a fresh asset keeps the keys distinct, and
re-registering an existing payload is rejected without changing the
collection. -/
theorem c1_witness :
    keysDistinct ([regA].foldl registerAssetStep [regB])
    ∧ ((∃ e, registerAsset [regB] regB = Except.error e)
        ∧ registerAssetStep [regB] regB = [regB]) :=
  ⟨(c1_register_preserves_unique_keys [regB] [regA] regA
      (by simp [keysDistinct])).1,
   (c1_register_preserves_unique_keys [regB] [] regB
      (by simp [keysDistinct])).2
     (Or.inr (Or.inr (Or.inr (Or.inr ⟨regB, by simp, Or.inl rfl⟩))))⟩

/-- C5 (amended): `saveEdit` succeeds exactly when the four required fields
are nonempty and no *other* asset (different `asset_id` from the one being
edited) holds any of the three key values; consequently a patch that keeps
the asset's own key values — and the required fields nonempty — never fails
on a collection with distinct keys, while setting a key field equal to
another asset's key field always fails with a validation error. -/
theorem c5_update_validation (assets : List Asset) (editingId : String) (f : Asset) :
    ((∃ l, saveEdit assets editingId f = Except.ok l) ↔
      ((f.asset_id ≠ "" ∧ f.id_code ≠ "" ∧ f.name ≠ "" ∧ f.serial ≠ "")
        ∧ ∀ b ∈ assets, b.asset_id ≠ editingId →
            f.asset_id ≠ b.asset_id ∧ f.id_code ≠ b.id_code ∧ f.serial ≠ b.serial))
    ∧ (keysDistinct assets →
        ∀ a₀ ∈ assets, a₀.asset_id = editingId →
          f.asset_id = a₀.asset_id → f.id_code = a₀.id_code → f.serial = a₀.serial →
          f.asset_id ≠ "" → f.id_code ≠ "" → f.name ≠ "" → f.serial ≠ "" →
          ∃ l, saveEdit assets editingId f = Except.ok l) := by
  have hiff : (∃ l, saveEdit assets editingId f = Except.ok l) ↔
      ((f.asset_id ≠ "" ∧ f.id_code ≠ "" ∧ f.name ≠ "" ∧ f.serial ≠ "")
        ∧ ∀ b ∈ assets, b.asset_id ≠ editingId →
            f.asset_id ≠ b.asset_id ∧ f.id_code ≠ b.id_code ∧ f.serial ≠ b.serial) := by
    constructor
    · rintro ⟨l, hok⟩
      unfold saveEdit at hok
      split_ifs at hok with h1 h2 h3 h4
      push_neg at h1
      refine ⟨⟨h1.1, h1.2.1, h1.2.2.1, h1.2.2.2⟩, ?_⟩
      intro b hb hbne
      refine ⟨?_, ?_, ?_⟩
      · intro he
        exact h2 (List.any_eq_true.mpr ⟨b, hb, by simp [he, hbne]⟩)
      · intro he
        exact h3 (List.any_eq_true.mpr ⟨b, hb, by simp [he, hbne]⟩)
      · intro he
        exact h4 (List.any_eq_true.mpr ⟨b, hb, by simp [he, hbne]⟩)
    · rintro ⟨⟨hne1, hne2, hne3, hne4⟩, hall⟩
      unfold saveEdit
      split_ifs with h1 h2 h3 h4
      · exact absurd h1 (by push_neg; exact ⟨hne1, hne2, hne3, hne4⟩)
      · obtain ⟨b, hb, hbb⟩ := List.any_eq_true.mp h2
        rw [Bool.and_eq_true, beq_iff_eq, bne_iff_ne] at hbb
        exact absurd hbb.1.symm (hall b hb hbb.2).1
      · obtain ⟨b, hb, hbb⟩ := List.any_eq_true.mp h3
        rw [Bool.and_eq_true, beq_iff_eq, bne_iff_ne] at hbb
        exact absurd hbb.1.symm (hall b hb hbb.2).2.1
      · obtain ⟨b, hb, hbb⟩ := List.any_eq_true.mp h4
        rw [Bool.and_eq_true, beq_iff_eq, bne_iff_ne] at hbb
        exact absurd hbb.1.symm (hall b hb hbb.2).2.2
      · exact ⟨_, rfl⟩
  refine ⟨hiff, ?_⟩
  intro hd a₀ ha₀ haid hfa hfc hfs hne1 hne2 hne3 hne4
  apply hiff.mpr
  refine ⟨⟨hne1, hne2, hne3, hne4⟩, ?_⟩
  intro b hb hbne
  have hab : a₀ ≠ b := by
    intro he
    rw [he] at haid
    exact hbne haid
  have hsymm : Symmetric (fun a b : Asset =>
      a.asset_id ≠ b.asset_id ∧ a.id_code ≠ b.id_code ∧ a.serial ≠ b.serial) :=
    fun x y h => ⟨h.1.symm, h.2.1.symm, h.2.2.symm⟩
  have hr := List.Pairwise.forall hsymm hd ha₀ hb hab
  exact ⟨hfa ▸ hr.1, hfc ▸ hr.2.1, hfs ▸ hr.2.2⟩

/-- The asset being edited in the C5 counterexample and witness. -/
def editAsset : Asset :=
  { asset_id := "A1", id_code := "C1", name := "Infusion Pump", brand := "",
    model := "", vendor := "", serial := "S1", purchase_date := "", price := none }

/-- A patch that changes only the non-key field `name` — to the empty
string — and is nevertheless rejected. -/
def editPatch : Asset := { editAsset with name := "" }

/-- C5 (counterexample): a patch that changes only a non-key field does not
always succeed — blanking `name` keeps all three key fields identical to the
edited asset's yet `saveEdit` fails with the required-field validation
error.  So the claim as stated is false. -/
theorem c5_counterexample :
    editPatch.asset_id = editAsset.asset_id
    ∧ editPatch.id_code = editAsset.id_code
    ∧ editPatch.serial = editAsset.serial
    ∧ editPatch ≠ editAsset
    ∧ saveEdit [editAsset] "A1" editPatch
        = Except.error "กรอก Asset ID / ID CODE / ชื่อ / Serial" := by
  refine ⟨rfl, rfl, rfl, ?_, ?_⟩
  · intro h
    exact absurd (congrArg Asset.name h) (by decide)
  · unfold saveEdit
    rw [if_pos (show editPatch.asset_id = "" ∨ editPatch.id_code = ""
        ∨ editPatch.name = "" ∨ editPatch.serial = ""
      from Or.inr (Or.inr (Or.inl rfl)))]

/-- A second asset with distinct keys for the C5 witness. -/
def editOther : Asset :=
  { asset_id := "A2", id_code := "C2", name := "Monitor", brand := "",
    model := "", vendor := "", serial := "S2", purchase_date := "", price := none }

/-- A patch of `editAsset` that changes only the non-key field `vendor` and
keeps the required fields nonempty. -/
def editGood : Asset := { editAsset with vendor := "Acme" }

/-- Witness for C5's amended theorem: the non-key, required-fields-intact
patch is accepted against a two-asset collection with distinct keys. -/
theorem c5_witness :
    ∃ l, saveEdit [editAsset, editOther] "A1" editGood = Except.ok l :=
  (c5_update_validation [editAsset, editOther] "A1" editGood).2
    (by unfold keysDistinct; decide) editAsset (by simp) rfl rfl rfl rfl
    (by decide) (by decide) (by decide) (by decide)
